import Mathlib

/-!
Verification of the GitHub Copilot LLM adapters of TradingAgents-CN.

This file gives a shallow embedding, in Lean 4, of the pure decision logic of
`tradingagents/llm_adapters/copilot_adapter.py`,
`tradingagents/llm_adapters/copilot_business_adapter.py` and
`scripts/get_github_token.py`: endpoint selection, parameter shaping,
message conversion, response decoding, credential resolution and the
token-helper script's exit-code logic.  Strings are Lean `String`s, Python
`None`/missing values are `Option`, Python exceptions are `Except`, Python
floats appear only in equality comparisons and assignments and are embedded
as exact rationals (`Rat`).
-/

/-! ### Generic string helpers (Python `in`, `startswith`, `lower`, slicing) -/

/-- ASCII lowercase of a character (the model identifiers and URLs the code
lowercases are pure ASCII). -/
def lowerChar (c : Char) : Char :=
  if 65 ≤ c.toNat ∧ c.toNat ≤ 90 then Char.ofNat (c.toNat + 32) else c

/-- Python `s.lower()`. -/
def pyLower (s : String) : String := ⟨s.data.map lowerChar⟩

/-- Boolean test that `needle` occurs as a contiguous infix of `hay`
(Python's `needle in hay` on strings), on character lists. -/
def hasInfix (needle : List Char) : List Char → Bool
  | [] => needle.isEmpty
  | c :: t => needle.isPrefixOf (c :: t) || hasInfix needle t

/-- Python `needle in hay` for strings. -/
def strContains (hay needle : String) : Bool :=
  hasInfix needle.data hay.data

/-- Python `s.startswith(p)`. -/
def strStarts (s p : String) : Bool :=
  p.data.isPrefixOf s.data

/-- Python `s[n:]` (drop the first `n` characters). -/
def strDrop (s : String) (n : Nat) : String := ⟨s.data.drop n⟩

/-- Python `s[:n]` (keep the first `n` characters). -/
def strTake (s : String) (n : Nat) : String := ⟨s.data.take n⟩

/-- Truthiness of a Python optional string (`None` and `""` are falsy). -/
def pyTruthyStr : Option String → Bool
  | none => false
  | some s => !(s = "")

/-- Python `a or b` on optional strings. -/
def pyOrStr (a b : Option String) : Option String :=
  if pyTruthyStr a then a else b

/-- The characters stripped by `strip("'\"")`. -/
def quoteChars : List Char := [Char.ofNat 39, Char.ofNat 34]

/-- Python `s.strip(cs)`: remove leading and trailing characters drawn from
`cs`. -/
def stripChars (s : String) (cs : List Char) : String :=
  ⟨((s.data.dropWhile (fun c => cs.contains c)).reverse.dropWhile
      (fun c => cs.contains c)).reverse⟩

/-- `api_key.strip("'\"")` (copilot_business_adapter.py line 77). -/
def stripQuotes (s : String) : String := stripChars s quoteChars

/-! ### JSON values (Python-side dict/list/str/number/bool/None) -/

/-- A Python/JSON value as manipulated by the adapters: request bodies are
objects (association lists preserving insertion order) and responses are
arbitrary JSON. -/
inductive Json where
  | null
  | bool (b : Bool)
  | num (q : Rat)
  | str (s : String)
  | arr (xs : List Json)
  | obj (fields : List (String × Json))

/-- Python truthiness of a value (`if not content:` checks). -/
def pyTruthy : Json → Bool
  | .null => false
  | .bool b => b
  | .num q => !(q = 0)
  | .str s => !(s = "")
  | .arr xs => !xs.isEmpty
  | .obj fs => !fs.isEmpty

/-- A single-quote character, used by Python `str()` on strings. -/
def squote : String := String.singleton (Char.ofNat 39)

mutual
/-- Python `str(value)` for a JSON-like value (dict/list repr with single
quotes); used by the decoder's last-resort fallback `str(data)`. -/
def pyRepr : Json → String
  | .null => "None"
  | .bool true => "True"
  | .bool false => "False"
  | .num q => toString q
  | .str s => squote ++ s ++ squote
  | .arr xs => "[" ++ pyReprList xs ++ "]"
  | .obj fs => "\x7b" ++ pyReprFields fs ++ "\x7d"
/-- Comma-separated rendering of a list's elements. -/
def pyReprList : List Json → String
  | [] => ""
  | [x] => pyRepr x
  | x :: y :: t => pyRepr x ++ ", " ++ pyReprList (y :: t)
/-- Comma-separated rendering of a dict's entries. -/
def pyReprFields : List (String × Json) → String
  | [] => ""
  | [(k, v)] => squote ++ k ++ squote ++ ": " ++ pyRepr v
  | (k, v) :: f :: t =>
      squote ++ k ++ squote ++ ": " ++ pyRepr v ++ ", " ++ pyReprFields (f :: t)
end

/-- Python `d.get(key, default)`: returns the stored value or the default on
a dict, and raises `AttributeError` on any non-dict value. -/
def pyGet (v : Json) (key : String) (dflt : Json) : Except String Json :=
  match v with
  | .obj fs =>
    match fs.lookup key with
    | some x => .ok x
    | none => .ok dflt
  | _ => .error "AttributeError: no attribute get"

/-- Python `v[0]`: first element of a list (or first character of a string);
raises `IndexError` when empty and `TypeError` on non-indexable values. -/
def pyIndex0 : Json → Except String Json
  | .arr [] => .error "IndexError: list index out of range"
  | .arr (x :: _) => .ok x
  | .str s =>
    match s.data with
    | [] => .error "IndexError: string index out of range"
    | c :: _ => .ok (.str (String.singleton c))
  | _ => .error "TypeError: not subscriptable"

/-! ### `copilot_adapter.py`: endpoint selection and parameter shaping -/

/-- The `chat_api_models` keyword list of `ChatCopilot.__init__`
(copilot_adapter.py lines 290-295). -/
def chatApiModels : List String := ["claude", "gpt-5", "o1-preview", "o1-mini"]

/-- `any(m in model.lower() for m in chat_api_models)`
(copilot_adapter.py line 298). -/
def modelNeedsChatApi (model : String) : Bool :=
  chatApiModels.any (fun m => strContains (pyLower model) m)

/-- The effective configuration computed by `ChatCopilot.__init__` before it
delegates to the base class. -/
structure ChatCopilotConfig where
  baseUrl : String
  useChatApi : Bool
  temperature : Rat
  maxTokens : Option Nat
  maxCompletionTokens : Option Nat
  useGithubBearer : Bool
deriving Repr, DecidableEq

/-- Shallow embedding of the argument processing of `ChatCopilot.__init__`
(copilot_adapter.py lines 259-404): base-URL selection over the keyword
list, the Azure temperature reset, the gpt-5/o1 `max_completion_tokens`
override, and whether the custom GitHub-Bearer HTTP client is installed. -/
def chatCopilotInit (model : String) (baseUrl0 : Option String)
    (temperature0 : Rat) (maxTokens0 : Option Nat) (useChatApi0 : Bool) :
    ChatCopilotConfig :=
  -- `if not base_url:` — absent or empty means no explicit base URL
  let given : Bool := match baseUrl0 with
    | some s => !(s = "")
    | none => false
  let p : String × Bool :=
    if given then (baseUrl0.getD "", useChatApi0)
    else if useChatApi0 || modelNeedsChatApi model then
      ("https://api.githubcopilot.com", true)
    else
      ("https://models.inference.ai.azure.com", useChatApi0)
  let baseUrl := p.1
  let useChatApi := p.2
  -- `if "azure.com" in base_url.lower(): if temperature != 1.0: temperature = 1.0`
  let temperature :=
    if strContains (pyLower baseUrl) "azure.com" then
      (if temperature0 = 1 then temperature0 else 1)
    else temperature0
  -- `if "gpt-5" in model.lower() or "o1" in model.lower(): max_tokens = None;
  --  model_kwargs["max_completion_tokens"] = 8000`
  let q : Option Nat × Option Nat :=
    if strContains (pyLower model) "gpt-5" || strContains (pyLower model) "o1" then
      (none, some 8000)
    else (maxTokens0, none)
  -- `if use_chat_api or "api.githubcopilot.com" in base_url:` installs the
  -- GitHub-Bearer HTTP clients
  let useGithubBearer := useChatApi || strContains baseUrl "api.githubcopilot.com"
  { baseUrl := baseUrl, useChatApi := useChatApi, temperature := temperature,
    maxTokens := q.1, maxCompletionTokens := q.2,
    useGithubBearer := useGithubBearer }

/-- Shallow embedding of `CopilotHTTPClient.build_request`
(copilot_adapter.py lines 75-87): when `use_github_bearer` is set and the
authorization header starts with `"Bearer "`, the prefix is replaced by
`"GitHub-Bearer "`; otherwise the header is left unchanged. -/
def copilotAuthHeader (useGithubBearer : Bool) (auth : String) : String :=
  if useGithubBearer && strStarts auth "Bearer " then
    "GitHub-Bearer " ++ strDrop auth 7
  else auth

/-! ### `copilot_business_adapter.py`: messages, request body, decoding -/

/-- A LangChain chat message as dispatched on by `_convert_messages`:
`HumanMessage`, `AIMessage`, `SystemMessage`, or any other message type
(whose content the code passes through `str()`). -/
inductive LCMessage where
  | human (content : String)
  | ai (content : String)
  | system (content : String)
  | other (content : String)
deriving Repr, DecidableEq

/-- One entry of the wire-format message list. -/
structure ApiMessage where
  role : String
  content : String
deriving Repr, DecidableEq

/-- The per-message branch of `ChatCopilotBusiness._convert_messages`
(copilot_business_adapter.py lines 177-186), in source branch order. -/
def convertMessage : LCMessage → ApiMessage
  | .human c => ⟨"user", c⟩
  | .ai c => ⟨"assistant", c⟩
  | .system c => ⟨"system", c⟩
  | .other c => ⟨"user", c⟩

/-- `ChatCopilotBusiness._convert_messages` (copilot_business_adapter.py
lines 174-187): the loop appending one converted entry per input message. -/
def convertMessages : List LCMessage → List ApiMessage
  | [] => []
  | m :: t => convertMessage m :: convertMessages t

/-- Role string the specification assigns to each message type
(spec §4.2: system/user/assistant mapped to their literal names, any other
role coerced to `user`).  Spec-side definition, to be compared with
`convertMessage`. -/
def specMessageRole : LCMessage → String
  | .human _ => "user"
  | .ai _ => "assistant"
  | .system _ => "system"
  | .other _ => "user"

/-- The text payload of a message. -/
def lcContent : LCMessage → String
  | .human c => c
  | .ai c => c
  | .system c => c
  | .other c => c

/-- JSON rendering of one wire message. -/
def apiMessageJson (m : ApiMessage) : Json :=
  .obj [("role", .str m.role), ("content", .str m.content)]

/-- `self.max_tokens or 4096` (copilot_business_adapter.py line 205):
Python `or` also replaces a stored `0`. -/
def maxTokensOr4096 : Option Nat → Nat
  | none => 4096
  | some n => if n = 0 then 4096 else n

/-- One step of Python `dict.update`: overwrite the value under an existing
key in place, or append a fresh key at the end. -/
def updateEntry (base : List (String × Json)) (k : String) (v : Json) :
    List (String × Json) :=
  if (base.lookup k).isSome then
    base.map (fun p => if p.1 = k then (k, v) else p)
  else base ++ [(k, v)]

/-- Python `base.update(upd)` on dicts as ordered association lists
(copilot_business_adapter.py line 209). -/
def dictUpdate (base : List (String × Json)) :
    List (String × Json) → List (String × Json)
  | [] => base
  | (k, v) :: t => dictUpdate (updateEntry base k v) t

/-- The request body built by `ChatCopilotBusiness._generate`
(copilot_business_adapter.py lines 198-209), including the final
`body.update(kwargs)`. -/
def buildBusinessBody (model : String) (temperature : Rat)
    (maxTokens : Option Nat) (messages : List LCMessage)
    (kwargs : List (String × Json)) : List (String × Json) :=
  let base : List (String × Json) :=
    [("model", .str model),
     ("messages", .arr ((convertMessages messages).map apiMessageJson)),
     ("temperature", .num temperature),
     ("top_p", .num 1),
     ("n", .num 1),
     ("stream", .bool false),
     ("max_tokens", .num (maxTokensOr4096 maxTokens))]
  dictUpdate base kwargs

/-- An outgoing HTTP request as assembled by `_generate`. -/
structure HttpRequest where
  method : String
  url : String
  body : List (String × Json)

/-- Default of the `base_url` field of `ChatCopilotBusiness`
(copilot_business_adapter.py line 60). -/
def businessDefaultBaseUrl : String := "https://api.business.githubcopilot.com"

/-- The request issued by `ChatCopilotBusiness._generate`
(copilot_business_adapter.py lines 215-223):
`self._http_client.post(f"{self.base_url}/chat/completions", json=body)`. -/
def buildBusinessRequest (baseUrl model : String) (temperature : Rat)
    (maxTokens : Option Nat) (messages : List LCMessage)
    (kwargs : List (String × Json)) : HttpRequest :=
  { method := "POST",
    url := baseUrl ++ "/chat/completions",
    body := buildBusinessBody model temperature maxTokens messages kwargs }

/-- The fixed tail of the HTTP-error message raised by `_generate`. -/
def businessErrorSuffix : String := "\n请检查 token 是否过期或格式是否正确"

/-- The status check of `_generate` (copilot_business_adapter.py lines
227-233): a status `≥ 400` raises `RuntimeError` whose message embeds the
status code and the response body truncated to 500 characters; otherwise no
error is raised here. -/
def businessStatusError (status : Nat) (text : String) : Option String :=
  if 400 ≤ status then
    some ("Copilot Business API 请求失败 " ++ toString status ++ ": " ++
      strTake text 500 ++ businessErrorSuffix)
  else none

/-- The content extraction of `_generate` (copilot_business_adapter.py lines
236-246): `data.get('choices', [{}])[0].get('message', {}).get('content', '')`
with the fallback `data.get('output_text') or str(data)`. -/
def decodeContent (data : Json) : Except String Json := do
  let choices ← pyGet data "choices" (.arr [.obj []])
  let first ← pyIndex0 choices
  let message ← pyGet first "message" (.obj [])
  let c ← pyGet message "content" (.str "")
  if pyTruthy c then
    return c
  else
    let ot ← pyGet data "output_text" .null
    if pyTruthy ot then return ot
    else return .str (pyRepr data)

/-- The response handling of `_generate`: the status check runs first and a
passing response is decoded. -/
def businessHandleResponse (status : Nat) (text : String) (data : Json) :
    Except String Json :=
  match businessStatusError status text with
  | some e => .error e
  | none => decodeContent data

/-! ### Credential resolution -/

/-- The `ValueError` message of `ChatCopilotBusiness.__init__`
(copilot_business_adapter.py lines 80-84), naming both environment
variables. -/
def businessTokenError : String :=
  "未找到 GitHub Copilot Business Token。\n" ++
  "请在 .env 文件中设置 GITHUB_COPILOT_BUSINESS_TOKEN 或 GITHUB_COPILOT_SESSION_TOKEN\n" ++
  "Token 格式示例: Bearer tid=...;sku=copilot_for_business..."

/-- Credential resolution of `ChatCopilotBusiness.__init__`
(copilot_business_adapter.py lines 72-84): the explicit argument, else
`GITHUB_COPILOT_BUSINESS_TOKEN`, else `GITHUB_COPILOT_SESSION_TOKEN`; any
resolved value has surrounding quotes stripped; with no truthy value left,
construction raises `ValueError`. -/
def resolveBusinessToken (explicitKey : Option String)
    (env : String → Option String) : Except String String :=
  let k1 := if pyTruthyStr explicitKey then explicitKey
    else pyOrStr (env "GITHUB_COPILOT_BUSINESS_TOKEN")
      (env "GITHUB_COPILOT_SESSION_TOKEN")
  let k2 := if pyTruthyStr k1 then k1.map stripQuotes else k1
  if pyTruthyStr k2 then .ok (k2.getD "") else .error businessTokenError

/-- Modelled from the spec: the credential resolution that
`OpenAICompatibleBase.__init__` (module
`tradingagents/llm_adapters/openai_compatible_base.py`, which is not among
the sources) performs for the non-Business adapter, per spec §4.3: the
explicit constructor argument, else the primary environment variable
`GITHUB_COPILOT_TOKEN` (with surrounding quotes stripped), else a
best-effort scan of IDE configuration files (`get_copilot_token_from_ide`),
else failure with a descriptive error naming the expected variable. -/
def resolveStandardToken (explicitKey : Option String)
    (env : String → Option String) (ideScan : Option String) :
    Except String String :=
  if pyTruthyStr explicitKey then .ok (explicitKey.getD "")
  else
    let envVal := (env "GITHUB_COPILOT_TOKEN").map stripQuotes
    if pyTruthyStr envVal then .ok (envVal.getD "")
    else if pyTruthyStr ideScan then .ok (ideScan.getD "")
    else .error "未找到凭证: 请设置环境变量 GITHUB_COPILOT_TOKEN"

/-! ### `scripts/get_github_token.py`: exit-code logic of `main` -/

/-- Exit code of `main` (get_github_token.py lines 187-232) as a function of
the outcome of each step: whether `gh` is installed, whether the interactive
`winget` install succeeds, whether `gh auth status` reports a login, whether
the interactive `gh auth login` succeeds, the token returned by
`gh auth token` (`none` when unavailable), and whether rewriting the `.env`
file succeeds. -/
def scriptMain (ghInstalled installOk authOk loginOk : Bool)
    (token : Option String) (envUpdateOk : Bool) : Nat :=
  if !ghInstalled then
    -- `if not install_gh_cli(): sys.exit(1)` else `sys.exit(0)` (restart shell)
    (if installOk then 0 else 1)
  else if !authOk && !loginOk then 1
  else
    match token with
    | none => 1
    | some t =>
      if t = "" then 1
      else
        -- `update_env_file` failure only prints manual instructions;
        -- `main` then falls through to the success banner and returns
        (fun (_ : Bool) => 0) envUpdateOk

/-! ## Theorems -/

theorem strStarts_append (p t : String) : strStarts (p ++ t) p = true := by
  rw [strStarts, String.data_append]
  simp [List.isPrefixOf_iff_prefix]

theorem strDrop_append (p t : String) : strDrop (p ++ t) p.data.length = t := by
  unfold strDrop
  rw [String.data_append, List.drop_left]

theorem copilotAuthHeader_bearer (tok : String) :
    copilotAuthHeader true ("Bearer " ++ tok) = "GitHub-Bearer " ++ tok := by
  have h7 : ("Bearer " : String).data.length = 7 := by decide
  simp [copilotAuthHeader, strStarts_append]
  have hd : strDrop ("Bearer " ++ tok) 7 = tok := by
    rw [← h7]
    exact strDrop_append "Bearer " tok
  rw [hd]

/-- C1: with no explicit `base_url`, a model whose lowercase form contains one
of `"claude"`, `"gpt-5"`, `"o1-preview"`, `"o1-mini"` selects base URL
`https://api.githubcopilot.com` and the custom HTTP client rewrites the
`Bearer` authorization prefix to `GitHub-Bearer`; any other model selects
`https://models.inference.ai.azure.com` and the header is a plain bearer. -/
theorem chatCopilot_endpoint_selection (model tok : String) (temp : Rat)
    (mt : Option Nat) :
    (modelNeedsChatApi model = true →
      (chatCopilotInit model none temp mt false).baseUrl
          = "https://api.githubcopilot.com" ∧
      (chatCopilotInit model none temp mt false).useGithubBearer = true ∧
      copilotAuthHeader true ("Bearer " ++ tok) = "GitHub-Bearer " ++ tok) ∧
    (modelNeedsChatApi model = false →
      (chatCopilotInit model none temp mt false).baseUrl
          = "https://models.inference.ai.azure.com" ∧
      (chatCopilotInit model none temp mt false).useGithubBearer = false ∧
      copilotAuthHeader false ("Bearer " ++ tok) = "Bearer " ++ tok) := by
  constructor
  · intro h
    refine ⟨?_, ?_, copilotAuthHeader_bearer tok⟩ <;>
      simp [chatCopilotInit, h]
  · intro h
    refine ⟨?_, ?_, ?_⟩
    · simp [chatCopilotInit, h]
    · simp [chatCopilotInit, h]
      decide
    · simp [copilotAuthHeader]

/-- Witness for C1 at the concrete models `"claude-3.5-sonnet"` (alternate
endpoint) and `"gpt-4o"` (default endpoint). -/
theorem chatCopilot_endpoint_selection_witness :
    (modelNeedsChatApi "claude-3.5-sonnet" = true ∧
      (chatCopilotInit "claude-3.5-sonnet" none 1 (some 8000) false).baseUrl
        = "https://api.githubcopilot.com") ∧
    (modelNeedsChatApi "gpt-4o" = false ∧
      (chatCopilotInit "gpt-4o" none 1 (some 8000) false).baseUrl
        = "https://models.inference.ai.azure.com") :=
  ⟨⟨by decide,
    ((chatCopilot_endpoint_selection "claude-3.5-sonnet" "t" 1 (some 8000)).1
      (by decide)).1⟩,
   ⟨by decide,
    ((chatCopilot_endpoint_selection "gpt-4o" "t" 1 (some 8000)).2
      (by decide)).1⟩⟩

/-- C2: when `ChatCopilot` resolves to the default Azure Inference profile,
the effective temperature is exactly 1 whatever the caller requested. -/
theorem chatCopilot_inference_temperature (model : String) (temp : Rat)
    (mt : Option Nat) (h : modelNeedsChatApi model = false) :
    (chatCopilotInit model none temp mt false).temperature = 1 := by
  have hz : strContains
      (pyLower "https://models.inference.ai.azure.com") "azure.com"
      = true := by decide
  by_cases ht : temp = 1
  · simp [chatCopilotInit, h, hz, ht]
  · simp [chatCopilotInit, h, hz, ht]

/-- Witness for C2: model `"gpt-4o"` with requested temperature `7/10` still
ends up with temperature `1`. -/
theorem chatCopilot_inference_temperature_witness :
    modelNeedsChatApi "gpt-4o" = false ∧
    (chatCopilotInit "gpt-4o" none (7/10) (some 500) false).temperature = 1 :=
  ⟨by decide,
   chatCopilot_inference_temperature "gpt-4o" (7/10) (some 500) (by decide)⟩

/-- C3 counterexample: `ChatCopilot` constructed for `"gpt-5-mini"` with
`max_tokens=500` sets `max_completion_tokens` to the hard-coded 8000, not
the caller's 500; and the Business adapter's body for the same call carries
the limit under `max_tokens`, not `max_completion_tokens`. -/
theorem chatCopilot_gpt5_token_value_counterexample :
    (chatCopilotInit "gpt-5-mini" none 1 (some 500) false).maxCompletionTokens
        = some 8000 ∧
    (chatCopilotInit "gpt-5-mini" none 1 (some 500) false).maxTokens = none ∧
    some 8000 ≠ (some 500 : Option Nat) ∧
    (buildBusinessBody "gpt-5-mini" 1 (some 500) [] []).lookup
        "max_completion_tokens" = none ∧
    (buildBusinessBody "gpt-5-mini" 1 (some 500) [] []).lookup "max_tokens"
        = some (.num 500) := by
  refine ⟨by decide, by decide, by decide, rfl, rfl⟩

/-- C3 (amended): for every model containing `"gpt-5"` or `"o1"`,
`ChatCopilot.__init__` discards the caller's `max_tokens` (sets it to None)
and fixes `max_completion_tokens` at 8000; `ChatCopilotBusiness._generate`
always encodes the token limit under the `max_tokens` field name with the
caller's value (0 or None replaced by 4096). -/
theorem chatCopilot_gpt5_token_params (model : String) (temp : Rat)
    (mt : Option Nat) (msgs : List LCMessage)
    (h : strContains (pyLower model) "gpt-5" = true ∨
         strContains (pyLower model) "o1" = true) :
    (chatCopilotInit model none temp mt false).maxTokens = none ∧
    (chatCopilotInit model none temp mt false).maxCompletionTokens
        = some 8000 ∧
    (buildBusinessBody model temp mt msgs []).lookup "max_tokens"
        = some (.num (maxTokensOr4096 mt)) ∧
    (buildBusinessBody model temp mt msgs []).lookup "max_completion_tokens"
        = none := by
  have hc : (strContains (pyLower model) "gpt-5"
      || strContains (pyLower model) "o1") = true := by
    rcases h with h | h <;> simp [h]
  refine ⟨?_, ?_, rfl, rfl⟩
  · simp [chatCopilotInit, hc]
  · simp [chatCopilotInit, hc]

/-- Witness for the amended C3 at model `"gpt-5-mini"` with requested limit
500. -/
theorem chatCopilot_gpt5_token_params_witness :
    strContains (pyLower "gpt-5-mini") "gpt-5" = true ∧
    (chatCopilotInit "gpt-5-mini" none 1 (some 500) false).maxCompletionTokens
        = some 8000 :=
  ⟨by decide,
   (chatCopilot_gpt5_token_params "gpt-5-mini" 1 (some 500) []
     (Or.inl (by decide))).2.1⟩

theorem convertMessages_eq_map (msgs : List LCMessage) :
    convertMessages msgs = msgs.map convertMessage := by
  induction msgs with
  | nil => rfl
  | cons m t ih => simp [convertMessages, ih]

/-- C4: `_convert_messages` preserves length and order, maps
system/user/assistant messages to the literal role strings
`"system"`/`"user"`/`"assistant"`, maps any other message type to role
`"user"`, and preserves every message's content. -/
theorem business_convert_messages (msgs : List LCMessage) :
    (convertMessages msgs).length = msgs.length ∧
    ∀ i (h : i < msgs.length) (h2 : i < (convertMessages msgs).length),
      ((convertMessages msgs).get ⟨i, h2⟩).role
          = specMessageRole (msgs.get ⟨i, h⟩) ∧
      ((convertMessages msgs).get ⟨i, h2⟩).content
          = lcContent (msgs.get ⟨i, h⟩) := by
  induction msgs with
  | nil =>
    exact ⟨rfl, fun i h => absurd h (Nat.not_lt_zero i)⟩
  | cons m t ih =>
    refine ⟨by simpa [convertMessages] using ih.1, ?_⟩
    intro i h h2
    cases i with
    | zero => cases m <;> exact ⟨rfl, rfl⟩
    | succ j =>
      have hj : j < t.length := Nat.lt_of_succ_lt_succ h
      have hj2 : j < (convertMessages t).length := by
        have := Nat.lt_of_succ_lt_succ h2
        simpa [convertMessages] using this
      exact ih.2 j hj hj2

/-- Witness for C4: a four-message conversation with one message of an
unrecognized type. -/
theorem business_convert_messages_witness :
    (convertMessages [LCMessage.system "sys", LCMessage.human "hi",
        LCMessage.ai "yo", LCMessage.other "fn"]).length = 4 ∧
    ((convertMessages [LCMessage.system "sys", LCMessage.human "hi",
        LCMessage.ai "yo", LCMessage.other "fn"]).get ⟨3, by decide⟩).role
      = specMessageRole ((([LCMessage.system "sys", LCMessage.human "hi",
        LCMessage.ai "yo", LCMessage.other "fn"] : List LCMessage)).get
          ⟨3, by decide⟩) :=
  ⟨(business_convert_messages _).1,
   ((business_convert_messages [LCMessage.system "sys", LCMessage.human "hi",
      LCMessage.ai "yo", LCMessage.other "fn"]).2 3 (by decide) (by decide)).1⟩

/-- C5 counterexample: for the response object whose only field is
`output_text` with the empty string as value, the field is present, yet the
decoder returns `str(data)` (the serialized object) rather than the field's
value. -/
theorem business_decode_output_text_counterexample :
    ([("output_text", Json.str "")] : List (String × Json)).lookup
        "output_text" = some (Json.str "") ∧
    decodeContent (Json.obj [("output_text", Json.str "")])
        = .ok (.str (pyRepr (Json.obj [("output_text", Json.str "")]))) ∧
    decodeContent (Json.obj [("output_text", Json.str "")])
        ≠ .ok (Json.str "") := by
  refine ⟨rfl, rfl, ?_⟩
  intro hc
  have h0 : decodeContent (Json.obj [("output_text", Json.str "")])
      = .ok (.str (pyRepr (Json.obj [("output_text", Json.str "")]))) := rfl
  rw [h0] at hc
  have h1 : Json.str (pyRepr (Json.obj [("output_text", Json.str "")]))
      = Json.str "" := by injection hc
  have h2 : pyRepr (Json.obj [("output_text", Json.str "")]) = "" := by
    injection h1
  have h3 : pyRepr (Json.obj [("output_text", Json.str "")]) ≠ "" := by decide
  exact h3 h2

/-- C5 (amended): the decoder returns `choices[0].message.content` when it is
a non-empty string, else the top-level `output_text` when present and truthy
(Python-non-empty), else the string serialization of the whole response; a
response object with no `choices` field never makes it raise. -/
theorem business_decode_fallbacks :
    (∀ (s : String) (rest : List (String × Json)), s ≠ "" →
      decodeContent (Json.obj (("choices", Json.arr
          [Json.obj [("message", Json.obj [("content", Json.str s)])]])
            :: rest))
        = .ok (.str s)) ∧
    (∀ fs : List (String × Json), fs.lookup "choices" = none →
      ∀ t, fs.lookup "output_text" = some t → pyTruthy t = true →
        decodeContent (Json.obj fs) = .ok t) ∧
    (∀ fs : List (String × Json), fs.lookup "choices" = none →
      fs.lookup "output_text" = none →
        decodeContent (Json.obj fs) = .ok (.str (pyRepr (Json.obj fs)))) ∧
    (∀ fs : List (String × Json), fs.lookup "choices" = none →
      ∀ t, fs.lookup "output_text" = some t → pyTruthy t = false →
        decodeContent (Json.obj fs) = .ok (.str (pyRepr (Json.obj fs)))) := by
  have hempty : pyTruthy (Json.str "") = false := rfl
  refine ⟨?_, ?_, ?_, ?_⟩
  · intro s rest hs
    simp [decodeContent, pyGet, pyIndex0, pyTruthy, hs,
      Bind.bind, Except.bind, Pure.pure, Except.pure]
  · intro fs hch t hot htr
    simp [decodeContent, pyGet, pyIndex0, hch, hot, htr, hempty,
      Bind.bind, Except.bind, Pure.pure, Except.pure]
  · intro fs hch hot
    simp [decodeContent, pyGet, pyIndex0, pyTruthy, hch, hot,
      Bind.bind, Except.bind, Pure.pure, Except.pure]
  · intro fs hch t hot htr
    simp [decodeContent, pyGet, pyIndex0, hch, hot, htr, hempty,
      Bind.bind, Except.bind, Pure.pure, Except.pure]

/-- Witness for the amended C5: a response lacking `choices` but carrying a
non-empty `output_text` decodes to that field's value. -/
theorem business_decode_fallbacks_witness :
    decodeContent (Json.obj [("output_text", Json.str "hello")])
        = .ok (Json.str "hello") :=
  business_decode_fallbacks.2.1 [("output_text", Json.str "hello")] rfl
    (Json.str "hello") rfl (by decide)

/-- C6: a response with status `≥ 400` makes `_generate` raise a runtime
failure whose message embeds the status code and the response body truncated
to 500 characters (the error is produced by the single status check, with no
retry loop anywhere in `_generate`); a status `< 400` produces no such
error. -/
theorem business_http_error (status : Nat) (text : String) (data : Json) :
    (400 ≤ status →
      businessHandleResponse status text data
        = .error ("Copilot Business API 请求失败 " ++ toString status ++ ": " ++
            strTake text 500 ++ businessErrorSuffix) ∧
      (strTake text 500).data.length ≤ 500) ∧
    (status < 400 → businessStatusError status text = none) := by
  constructor
  · intro h
    constructor
    · simp [businessHandleResponse, businessStatusError, h]
    · simp [strTake]
  · intro h
    simp [businessStatusError, Nat.not_le_of_lt h]

/-- Witness for C6 at status 403 (error raised) and status 200 (no error). -/
theorem business_http_error_witness :
    (businessHandleResponse 403 "forbidden body" (Json.obj [])
      = .error ("Copilot Business API 请求失败 " ++ toString 403 ++ ": " ++
          strTake "forbidden body" 500 ++ businessErrorSuffix)) ∧
    businessStatusError 200 "ok body" = none :=
  ⟨((business_http_error 403 "forbidden body" (Json.obj [])).1 (by decide)).1,
   (business_http_error 200 "ok body" (Json.obj [])).2 (by decide)⟩

/-- C7: credential resolution order and failure behaviour.  For the Business
adapter (from the source): the explicit constructor argument wins over every
environment; else `GITHUB_COPILOT_BUSINESS_TOKEN`; else
`GITHUB_COPILOT_SESSION_TOKEN`; resolved values get surrounding quotes
stripped; with all sources exhausted, construction fails with the
`ValueError` message naming both variables.  For the standard adapter
(modelled from the spec, `resolveStandardToken`): explicit argument, else
`GITHUB_COPILOT_TOKEN` (quote-stripped), else the IDE configuration scan,
else a failure naming the variable. -/
theorem copilot_credential_resolution :
    (∀ (e : String) (env : String → Option String), e ≠ "" →
      stripQuotes e ≠ "" →
      resolveBusinessToken (some e) env = .ok (stripQuotes e)) ∧
    (∀ (v : String) (env : String → Option String),
      env "GITHUB_COPILOT_BUSINESS_TOKEN" = some v → v ≠ "" →
      stripQuotes v ≠ "" →
      resolveBusinessToken none env = .ok (stripQuotes v)) ∧
    (∀ (v : String) (env : String → Option String),
      env "GITHUB_COPILOT_BUSINESS_TOKEN" = none →
      env "GITHUB_COPILOT_SESSION_TOKEN" = some v → v ≠ "" →
      stripQuotes v ≠ "" →
      resolveBusinessToken none env = .ok (stripQuotes v)) ∧
    (∀ env : String → Option String,
      env "GITHUB_COPILOT_BUSINESS_TOKEN" = none →
      env "GITHUB_COPILOT_SESSION_TOKEN" = none →
      resolveBusinessToken none env = .error businessTokenError ∧
      strContains businessTokenError "GITHUB_COPILOT_BUSINESS_TOKEN" = true ∧
      strContains businessTokenError "GITHUB_COPILOT_SESSION_TOKEN" = true) ∧
    (∀ (e : String) (env : String → Option String) (ide : Option String),
      e ≠ "" → resolveStandardToken (some e) env ide = .ok e) ∧
    (∀ (v : String) (env : String → Option String) (ide : Option String),
      env "GITHUB_COPILOT_TOKEN" = some v → stripQuotes v ≠ "" →
      resolveStandardToken none env ide = .ok (stripQuotes v)) ∧
    (∀ (env : String → Option String) (t : String),
      env "GITHUB_COPILOT_TOKEN" = none → t ≠ "" →
      resolveStandardToken none env (some t) = .ok t) ∧
    (∀ env : String → Option String,
      env "GITHUB_COPILOT_TOKEN" = none →
      resolveStandardToken none env none
        = .error "未找到凭证: 请设置环境变量 GITHUB_COPILOT_TOKEN" ∧
      strContains "未找到凭证: 请设置环境变量 GITHUB_COPILOT_TOKEN"
        "GITHUB_COPILOT_TOKEN" = true) := by
  refine ⟨?_, ?_, ?_, ?_, ?_, ?_, ?_, ?_⟩
  · intro e env he hse
    simp [resolveBusinessToken, pyTruthyStr, pyOrStr, he, hse]
  · intro v env hv hvne hsv
    simp [resolveBusinessToken, pyTruthyStr, pyOrStr, hv, hvne, hsv]
  · intro v env hb hv hvne hsv
    simp [resolveBusinessToken, pyTruthyStr, pyOrStr, hb, hv, hvne, hsv]
  · intro env hb hs
    refine ⟨?_, by decide, by decide⟩
    simp [resolveBusinessToken, pyTruthyStr, pyOrStr, hb, hs]
  · intro e env ide he
    simp [resolveStandardToken, pyTruthyStr, he]
  · intro v env ide hv hsv
    simp [resolveStandardToken, pyTruthyStr, hv, hsv]
  · intro env t henv ht
    simp [resolveStandardToken, pyTruthyStr, henv, ht]
  · intro env henv
    refine ⟨?_, by decide⟩
    simp [resolveStandardToken, pyTruthyStr, henv]

/-- Witness for C7: with no explicit key and an empty environment the
Business adapter's resolution fails with the message naming both variables,
and an explicit key `"'tok'"` resolves to the quote-stripped `"tok"`. -/
theorem copilot_credential_resolution_witness :
    resolveBusinessToken none (fun _ => none) = .error businessTokenError ∧
    resolveBusinessToken (some "'tok'") (fun _ => none) = .ok "tok" := by
  constructor
  · exact (copilot_credential_resolution.2.2.2.1 (fun _ => none) rfl rfl).1
  · have h := copilot_credential_resolution.1 "'tok'" (fun _ => none)
      (by decide) (by decide)
    rw [h]
    rfl

theorem lookup_map_replace (l : List (String × Json)) (k : String) (v : Json)
    (h : (l.lookup k).isSome) :
    (l.map (fun p => if p.1 = k then (k, v) else p)).lookup k = some v := by
  induction l with
  | nil => simp at h
  | cons p t ih =>
    obtain ⟨k1, v1⟩ := p
    by_cases hp : k1 = k
    · subst hp
      simp [List.lookup_cons_self]
    · have hbeq : (k == k1) = false := by
        simp
        exact fun he => hp he.symm
      have h' : (t.lookup k).isSome := by
        simpa [List.lookup_cons, hbeq] using h
      simp [hp, List.lookup_cons, hbeq, ih h']

theorem lookup_map_replace_other (l : List (String × Json)) (k : String)
    (v : Json) (k2 : String) (h : ¬k2 = k) :
    (l.map (fun p => if p.1 = k then (k, v) else p)).lookup k2
      = l.lookup k2 := by
  induction l with
  | nil => rfl
  | cons p t ih =>
    obtain ⟨k1, v1⟩ := p
    by_cases hp : k1 = k
    · subst hp
      have hbeq : (k2 == k1) = false := by simp [h]
      simp [List.lookup_cons, hbeq, ih]
    · cases hk2 : (k2 == k1) <;> simp [hp, List.lookup_cons, hk2, ih]

theorem lookup_append_single_other (l : List (String × Json)) (k : String)
    (v : Json) (k2 : String) (h : ¬k2 = k) :
    (l ++ [(k, v)]).lookup k2 = l.lookup k2 := by
  rw [List.lookup_append]
  have hbeq : (k2 == k) = false := by simp [h]
  have hone : ([(k, v)] : List (String × Json)).lookup k2 = none := by
    simp [List.lookup_cons, hbeq]
  rw [hone]
  cases l.lookup k2 <;> rfl

theorem lookup_updateEntry_self (l : List (String × Json)) (k : String)
    (v : Json) :
    (updateEntry l k v).lookup k = some v := by
  unfold updateEntry
  split
  next hs => exact lookup_map_replace l k v hs
  next hs =>
    have hn : l.lookup k = none := by
      cases hl : l.lookup k
      · rfl
      · simp [hl] at hs
    rw [List.lookup_append, hn]
    simp [List.lookup_cons_self]

theorem lookup_updateEntry_other (l : List (String × Json)) (k : String)
    (v : Json) (k2 : String) (h : ¬k2 = k) :
    (updateEntry l k v).lookup k2 = l.lookup k2 := by
  unfold updateEntry
  split
  next => exact lookup_map_replace_other l k v k2 h
  next => exact lookup_append_single_other l k v k2 h

theorem lookup_dictUpdate_none (base upd : List (String × Json)) (k : String)
    (h : upd.lookup k = none) :
    (dictUpdate base upd).lookup k = base.lookup k := by
  induction upd generalizing base with
  | nil => rfl
  | cons p t ih =>
    obtain ⟨k1, v1⟩ := p
    have hk : ¬k = k1 := by
      intro hkk
      subst hkk
      simp [List.lookup_cons_self] at h
    have hbeq : (k == k1) = false := by simp [hk]
    have ht : t.lookup k = none := by
      simpa [List.lookup_cons, hbeq] using h
    rw [dictUpdate, ih _ ht]
    exact lookup_updateEntry_other base k1 v1 k hk

theorem lookup_dictUpdate_some (base upd : List (String × Json)) (k : String)
    (v : Json) (hnd : (upd.map Prod.fst).Nodup) (h : upd.lookup k = some v) :
    (dictUpdate base upd).lookup k = some v := by
  induction upd generalizing base with
  | nil => simp at h
  | cons p t ih =>
    obtain ⟨k1, v1⟩ := p
    have hnd1 : (k1 :: t.map Prod.fst).Nodup := hnd
    have hnd2 : k1 ∉ t.map Prod.fst ∧ (t.map Prod.fst).Nodup :=
      List.nodup_cons.mp hnd1
    by_cases hk : k = k1
    · subst hk
      have hv : v1 = v := by simpa [List.lookup_cons_self] using h
      have ht : t.lookup k = none := by
        rw [List.lookup_eq_none_iff]
        intro q hq
        have hm : q.1 ∈ t.map Prod.fst := List.mem_map_of_mem _ hq
        have hne : k ≠ q.1 := fun he => hnd2.1 (he ▸ hm)
        simp [hne]
      rw [dictUpdate, lookup_dictUpdate_none _ _ _ ht,
        lookup_updateEntry_self, hv]
    · have hbeq : (k == k1) = false := by simp [hk]
      have h' : t.lookup k = some v := by
        simpa [List.lookup_cons, hbeq] using h
      rw [dictUpdate]
      exact ih _ hnd2.2 h'

/-- C8 counterexample: a `_generate` call passing the extra keyword argument
`top_p=1/2` produces a body whose `top_p` is 1/2, not the nominally fixed
1.0 — the fixed scalars do not hold for every call. -/
theorem business_request_scalars_counterexample :
    (buildBusinessBody "gpt-5" 1 (some 8000) []
        [("top_p", Json.num (1/2))]).lookup "top_p"
      = some (Json.num (1/2)) ∧
    some (Json.num (1/2)) ≠ some (Json.num 1) := by
  refine ⟨rfl, ?_⟩
  intro hc
  have h1 : Json.num (1/2) = Json.num 1 := by injection hc
  have h2 : (1/2 : Rat) = 1 := by injection h1
  norm_num at h2

/-- C8 (amended): for every `_generate` call passing no extra keyword
arguments, the request is a POST to `<base_url>/chat/completions` whose
body carries the model identifier, the configured temperature, `top_p = 1`,
`n = 1`, `stream = false` and an integer `max_tokens`; the default base URL
is an HTTPS URL. -/
theorem business_request_shape (baseUrl model : String) (temp : Rat)
    (mt : Option Nat) (msgs : List LCMessage) :
    (buildBusinessRequest baseUrl model temp mt msgs []).method = "POST" ∧
    (buildBusinessRequest baseUrl model temp mt msgs []).url
        = baseUrl ++ "/chat/completions" ∧
    (buildBusinessRequest baseUrl model temp mt msgs []).body.lookup "model"
        = some (.str model) ∧
    (buildBusinessRequest baseUrl model temp mt msgs []).body.lookup
        "temperature" = some (.num temp) ∧
    (buildBusinessRequest baseUrl model temp mt msgs []).body.lookup "top_p"
        = some (.num 1) ∧
    (buildBusinessRequest baseUrl model temp mt msgs []).body.lookup "n"
        = some (.num 1) ∧
    (buildBusinessRequest baseUrl model temp mt msgs []).body.lookup "stream"
        = some (.bool false) ∧
    (buildBusinessRequest baseUrl model temp mt msgs []).body.lookup
        "max_tokens" = some (.num (maxTokensOr4096 mt)) ∧
    strStarts businessDefaultBaseUrl "https://" = true :=
  ⟨rfl, rfl, rfl, rfl, rfl, rfl, rfl, rfl, by decide⟩

/-- C9: every extra keyword argument of a `_generate` call whose name
collides with a request-body field replaces that field's value through
`body.update(kwargs)`; for distinct keyword names, the value looked up in
the final body is exactly the keyword's value. -/
theorem business_kwargs_override (model : String) (temp : Rat)
    (mt : Option Nat) (msgs : List LCMessage)
    (kwargs : List (String × Json)) (k : String) (v : Json)
    (hnd : (kwargs.map Prod.fst).Nodup) (h : kwargs.lookup k = some v) :
    (buildBusinessBody model temp mt msgs kwargs).lookup k = some v := by
  unfold buildBusinessBody
  exact lookup_dictUpdate_some _ kwargs k v hnd h

/-- Witness for C9: `stream=true` passed as a keyword overrides the fixed
`stream=false` of the body. -/
theorem business_kwargs_override_witness :
    (buildBusinessBody "gpt-5" 1 (some 8000) []
        [("stream", Json.bool true)]).lookup "stream"
      = some (Json.bool true) :=
  business_kwargs_override "gpt-5" 1 (some 8000) []
    [("stream", Json.bool true)] "stream" (Json.bool true) (by simp) rfl

/-- C10 counterexample: a run where `gh` is installed, the user is logged
in and a token is fetched, but rewriting the `.env` file fails, still exits
with code 0 (the script only prints manual instructions), contradicting
"exit code 1 on any failure step". -/
theorem script_exit_code_counterexample :
    scriptMain true true true true (some "ghp_exampletoken1234567890") false
      = 0 ∧ (0 : Nat) ≠ 1 :=
  ⟨rfl, by decide⟩

/-- C10 (amended): the helper script exits 0 when `gh` is installed, login
is ensured and a token is fetched, regardless of whether the `.env` rewrite
succeeds (a failed rewrite only prints manual instructions); it exits 1
when `gh` is missing and its installation fails, when login cannot be
ensured, or when no token is obtained; after a successful interactive
installation of `gh` it exits 0 immediately (asking for a shell restart)
without running the remaining steps. -/
theorem script_exit_codes (installOk envOk authOk loginOk : Bool)
    (token : Option String) (t : String) :
    (scriptMain false installOk authOk loginOk token envOk
        = (if installOk then 0 else 1)) ∧
    (scriptMain true installOk false false token envOk = 1) ∧
    ((authOk || loginOk) = true →
      scriptMain true installOk authOk loginOk none envOk = 1 ∧
      (t ≠ "" →
        scriptMain true installOk authOk loginOk (some t) envOk = 0)) := by
  refine ⟨?_, ?_, ?_⟩
  · cases installOk <;> rfl
  · rfl
  · intro h
    constructor
    · cases authOk <;> cases loginOk <;> simp_all [scriptMain]
    · intro ht
      cases authOk <;> cases loginOk <;> simp_all [scriptMain]

/-- Witness for the amended C10: logged in (`gh auth status` ok), token
fetched, `.env` rewrite outcome irrelevant — exit code 0. -/
theorem script_exit_codes_witness :
    (true || false) = true ∧ "ghp_tok" ≠ "" ∧
    scriptMain true true true false (some "ghp_tok") true = 0 :=
  ⟨by decide, by decide,
   ((script_exit_codes true true true false (some "ghp_tok") "ghp_tok").2.2
     (by decide)).2 (by decide)⟩
